import Mathlib

/-!
Verification of the prerequisite-check core of `tutorial_poc.py`.

The program's only real logic is `check_prerequisites` (probe a fixed list
of external tools by running their version commands with a 5-second
timeout, collect a name → available mapping, and reduce it with `all`)
and `main` (print fixed documentation sections, print a warning block iff
the check failed, and return 0).  The external world is modelled as an
environment mapping each command line to the outcome of running it; the
static documentation sections are fixed text and are modelled as atomic
output events.
-/

namespace TutorialPoc

/-- A command line: executable followed by its arguments. -/
abbrev Cmd := List String

/-- A tool to probe: display name plus version command.  Mirrors the
pairs in the `tools` list of `check_prerequisites` (lines 27-30). -/
structure ToolSpec where
  name : String
  command : Cmd
  deriving Repr, DecidableEq

/-- Outcome of invoking one external command under a timeout, as observed
through `subprocess.run`: the process completes (with an exit status and
captured standard output), exceeds the timeout, or the executable cannot
be located. -/
inductive ProcOutcome where
  | completed (returncode : Int) (stdout : String)
  | timedOut
  | notFound
  deriving Repr, DecidableEq

/-- The host environment: the outcome of running each command line. -/
abbrev Env := Cmd → ProcOutcome

/-- The two exceptions the loop in `check_prerequisites` catches from
`subprocess.run`: `subprocess.TimeoutExpired` and `FileNotFoundError`
(line 44). -/
inductive ProbeError where
  | timeoutExpired
  | fileNotFound
  deriving Repr, DecidableEq

/-- `subprocess.run(cmd, capture_output=True, text=True, timeout=5)`
(line 35): either the completed process (return code, captured stdout) or
one of the two raised exceptions. -/
def subprocessRun (env : Env) (cmd : Cmd) : Except ProbeError (Int × String) :=
  match env cmd with
  | .completed rc out => .ok (rc, out)
  | .timedOut => .error .timeoutExpired
  | .notFound => .error .fileNotFound

/-- `s.split('\n')[0]` (line 38): the characters of `s` before the first
newline; the whole string when it has no newline; empty on empty input. -/
def firstLine (s : String) : String :=
  String.mk (s.data.takeWhile (fun c => c != '\n'))

/-- One iteration of the probe loop (lines 34-46): run the command, catch
the two exceptions, classify.  Returns the `available` flag stored into
`results[name]` together with the lines printed for this tool, in print
order. -/
def probeTool (env : Env) (t : ToolSpec) : Bool × List String :=
  match subprocessRun env t.command with
  | .ok (rc, out) =>
    if rc = 0 then
      (true, ["✓ " ++ t.name ++ " is installed", "  " ++ firstLine out])
    else
      (false, ["✗ " ++ t.name ++ " not found or not working"])
  | .error _ => (false, ["✗ " ++ t.name ++ " not installed"])

/-- An observable event of the check: spawning a process, or printing one
line of text. -/
inductive Event where
  | run (cmd : Cmd)
  | line (s : String)
  deriving Repr, DecidableEq

/-- The events of one loop iteration: the process is spawned, then the
result lines are printed, before the loop moves to the next tool. -/
def probeStep (env : Env) (t : ToolSpec) : List Event × Bool :=
  let r := probeTool env t
  (Event.run t.command :: r.2.map Event.line, r.1)

/-- Python dict assignment `d[k] = v`: update in place when the key is
present (keeping insertion order), otherwise append a new entry. -/
def dictInsert (d : List (String × Bool)) (k : String) (v : Bool) :
    List (String × Bool) :=
  if d.any (fun p => p.1 == k) then
    d.map (fun p => if p.1 == k then (k, v) else p)
  else d ++ [(k, v)]

/-- One step of the aggregation loop: emit the probe's events and store
`results[name] = available`. -/
def checkStep (env : Env) (acc : List Event × List (String × Bool))
    (t : ToolSpec) : List Event × List (String × Bool) :=
  let s := probeStep env t
  (acc.1 ++ s.1, dictInsert acc.2 t.name s.2)

/-- The aggregation loop of `check_prerequisites` over an arbitrary spec
list: probe each spec in order, accumulating the event trace and the
`results` dict. -/
def checkAll (env : Env) (specs : List ToolSpec) :
    List Event × List (String × Bool) :=
  specs.foldl (checkStep env) ([], [])

/-- `all(results.values())` (line 48). -/
def overallReady (report : List (String × Bool)) : Bool :=
  report.all (fun p => p.2)

/-- The fixed tool list declared at lines 27-30. -/
def tools : List ToolSpec :=
  [⟨"Docker", ["docker", "--version"]⟩,
   ⟨"FFmpeg", ["ffmpeg", "-version"]⟩]

/-- Python `s * n` for strings: `n` copies of `s` concatenated. -/
def repeatStr (n : Nat) (s : String) : String :=
  String.join (List.replicate n s)

/-- The lines printed by `print_section(title)` (lines 16-20). -/
def sectionLines (title : String) : List String :=
  ["", repeatStr 70 "=", "  " ++ title, repeatStr 70 "=", ""]

/-- `check_prerequisites()` (lines 23-48): print the section header, run
the loop over the declared tools, and return `all(results.values())`.
The result is the event trace, the `results` dict, and the returned
boolean. -/
def check_prerequisites (env : Env) :
    List Event × List (String × Bool) × Bool :=
  let checked := checkAll env tools
  ((sectionLines "Checking Prerequisites").map Event.line ++ checked.1,
   checked.2, overallReady checked.2)

/-- The sections `main` prints, in program order.  The static
documentation sections (lines 51-294 and the summary string) are fixed
text with no logic and are modelled as atomic events. -/
inductive MainEvent where
  | banner
  | prereq (events : List Event)
  | workflow
  | dockerUsage
  | configOptions
  | pythonApi
  | supportedFeatures
  | storage
  | quickStart
  | summary
  | warning
  deriving Repr, DecidableEq

/-- `main()` (lines 297-343): banner, prerequisite check, the seven demo
sections, the summary, then — only when the check failed — the warning
block; returns 0 unconditionally.  `sys.exit(main())` (line 347) makes
that return value the process exit code. -/
def main (env : Env) : Int × List MainEvent :=
  let checked := check_prerequisites env
  (0,
   [MainEvent.banner, MainEvent.prereq checked.1, MainEvent.workflow,
    MainEvent.dockerUsage, MainEvent.configOptions, MainEvent.pythonApi,
    MainEvent.supportedFeatures, MainEvent.storage, MainEvent.quickStart,
    MainEvent.summary]
   ++ (if checked.2.2 then [] else [MainEvent.warning]))

/-! Concrete environments used as witnesses. -/

/-- Docker answers its version query with exit 0; every other executable
is missing. -/
def envDockerOnly : Env := fun cmd =>
  if cmd = ["docker", "--version"] then
    .completed 0 "Docker version 24.0.5, build ced0996"
  else .notFound

/-- Every command completes with exit 0 and empty output. -/
def envEmptyOk : Env := fun _ => .completed 0 ""

/-- Every command hangs past the timeout. -/
def envHang : Env := fun _ => .timedOut

/-- No executable can be located. -/
def envMissing : Env := fun _ => .notFound

/-- Every command runs but exits with status 1. -/
def envExitOne : Env := fun _ => .completed 1 ""

/-! Structural lemmas about the aggregation loop. -/

/-- The event trace of the aggregation loop is the concatenation of each
tool's events, in declaration order, on top of the initial trace. -/
theorem foldl_checkStep_fst (env : Env) (specs : List ToolSpec) :
    ∀ (e : List Event) (r : List (String × Bool)),
      (specs.foldl (checkStep env) (e, r)).1 =
        e ++ (specs.map (fun t => (probeStep env t).1)).flatten := by
  induction specs with
  | nil => intro e r; simp [List.foldl]
  | cons t ts ih =>
    intro e r
    simp only [List.foldl, List.map_cons, List.flatten_cons]
    rw [show checkStep env (e, r) t =
          (e ++ (probeStep env t).1, dictInsert r t.name (probeStep env t).2)
        from rfl]
    rw [ih]
    simp [List.append_assoc]

/-- The dict built by the aggregation loop depends only on the dict part
of the accumulator. -/
theorem foldl_checkStep_snd (env : Env) (specs : List ToolSpec) :
    ∀ (e : List Event) (r : List (String × Bool)),
      (specs.foldl (checkStep env) (e, r)).2 =
        specs.foldl (fun d t => dictInsert d t.name (probeStep env t).2) r := by
  induction specs with
  | nil => intro e r; rfl
  | cons t ts ih =>
    intro e r
    simp only [List.foldl]
    exact ih _ _

/-- Inserting a key that is not present appends it. -/
theorem dictInsert_keys_new (d : List (String × Bool)) (k : String)
    (v : Bool) (h : k ∉ d.map Prod.fst) :
    dictInsert d k v = d ++ [(k, v)] := by
  unfold dictInsert
  rw [if_neg]
  intro hany
  rcases List.any_eq_true.mp hany with ⟨p, hp, hpk⟩
  exact h (List.mem_map.mpr ⟨p, hp, (eq_of_beq hpk).symm ▸ rfl⟩)

/-- When the spec names are distinct and disjoint from the keys already
present, the aggregation loop appends exactly one entry per spec, keyed
by its name, in declaration order. -/
theorem dict_fold_keys (env : Env) : ∀ (specs : List ToolSpec)
    (r : List (String × Bool)),
    (specs.map ToolSpec.name).Nodup →
    (∀ t ∈ specs, t.name ∉ r.map Prod.fst) →
    (specs.foldl (fun d t => dictInsert d t.name (probeStep env t).2) r).map
        Prod.fst = r.map Prod.fst ++ specs.map ToolSpec.name := by
  intro specs
  induction specs with
  | nil => intro r _ _; simp
  | cons t ts ih =>
    intro r hnd hdisj
    simp only [List.map_cons, List.nodup_cons] at hnd
    simp only [List.foldl]
    rw [dictInsert_keys_new r t.name _ (hdisj t (List.mem_cons_self t ts))]
    rw [ih (r ++ [(t.name, (probeStep env t).2)]) hnd.2]
    · simp
    · intro u hu
      rw [List.map_append, List.mem_append]
      rintro (hur | hut)
      · exact hdisj u (List.mem_cons_of_mem t hu) hur
      · simp only [List.map_cons, List.map_nil, List.mem_singleton] at hut
        exact hnd.1 (hut ▸ List.mem_map_of_mem ToolSpec.name hu)

/-! Theorems for the claims. -/

/-- Claim C7: for every combination of probe outcomes, the value `main`
returns — which `sys.exit` turns into the process exit code — is zero;
readiness never influences the exit status. -/
theorem main_exit_code_zero (env : Env) : (main env).1 = 0 := rfl

/-- Claim C9: the readiness check declares exactly the two tools — the
container-engine version command `docker --version` and the
media-processing version command `ffmpeg -version` — and its event trace
probes them in declaration order, emitting each tool's printed result
lines immediately after its probe and before the next tool's process is
spawned, not buffered until the end. -/
theorem check_two_tools_in_order (env : Env) :
    tools = [⟨"Docker", ["docker", "--version"]⟩,
             ⟨"FFmpeg", ["ffmpeg", "-version"]⟩] ∧
    (checkAll env tools).1 =
      (Event.run ["docker", "--version"] ::
        (probeTool env ⟨"Docker", ["docker", "--version"]⟩).2.map Event.line)
      ++
      (Event.run ["ffmpeg", "-version"] ::
        (probeTool env ⟨"FFmpeg", ["ffmpeg", "-version"]⟩).2.map Event.line) := by
  refine ⟨rfl, ?_⟩
  rw [show checkAll env tools =
        List.foldl (checkStep env) ([], []) tools from rfl]
  rw [foldl_checkStep_fst]
  simp [tools, probeStep]

/-- Claim C10: a process that exits with status zero but prints nothing
still yields `available = true`; the first line of the empty capture is
the empty string, so the indented detail line is just the two-space
indent, and no fault occurs. -/
theorem empty_output_still_available (env : Env) (t : ToolSpec)
    (h : env t.command = .completed 0 "") :
    (probeTool env t).1 = true ∧
    (probeTool env t).2 = ["✓ " ++ t.name ++ " is installed", "  "] := by
  unfold probeTool subprocessRun
  rw [h]
  exact ⟨rfl, rfl⟩

/-- Witness for C10: with every command succeeding on empty output, the
Docker probe reports available with an empty detail. -/
theorem empty_output_still_available_witness :
    (probeTool envEmptyOk ⟨"Docker", ["docker", "--version"]⟩).1 = true ∧
    (probeTool envEmptyOk ⟨"Docker", ["docker", "--version"]⟩).2 =
      ["✓ Docker is installed", "  "] :=
  empty_output_still_available envEmptyOk ⟨"Docker", ["docker", "--version"]⟩ rfl

/-- Claim C1: the probe reports `available = true` iff the spawned
process completes within the timeout and exits with status zero; in that
case the detail line printed is the first line of the captured standard
output. -/
theorem probe_available_iff_exit_zero (env : Env) (t : ToolSpec) :
    ((probeTool env t).1 = true ↔
      ∃ out, env t.command = .completed 0 out) ∧
    (∀ out, env t.command = .completed 0 out →
      (probeTool env t).2 =
        ["✓ " ++ t.name ++ " is installed", "  " ++ firstLine out]) := by
  constructor
  · unfold probeTool subprocessRun
    cases h : env t.command with
    | completed rc out =>
      by_cases hrc : rc = 0
      · subst hrc
        simp only [if_pos rfl]
        exact ⟨fun _ => ⟨out, rfl⟩, fun _ => rfl⟩
      · simp only [if_neg hrc]
        constructor
        · intro hfalse; exact absurd hfalse (by simp)
        · rintro ⟨out', hout'⟩
          exact absurd (ProcOutcome.completed.inj hout').1 hrc
    | timedOut =>
      constructor
      · intro hfalse; exact absurd hfalse (by simp)
      · rintro ⟨out', hout'⟩; exact ProcOutcome.noConfusion hout'
    | notFound =>
      constructor
      · intro hfalse; exact absurd hfalse (by simp)
      · rintro ⟨out', hout'⟩; exact ProcOutcome.noConfusion hout'
  · intro out hout
    unfold probeTool subprocessRun
    rw [hout]
    rfl

/-- Witness for C1: with Docker's version command succeeding, the probe
is available and the detail is the first line of the captured output. -/
theorem probe_available_iff_exit_zero_witness :
    (probeTool envDockerOnly ⟨"Docker", ["docker", "--version"]⟩).1 = true ∧
    (probeTool envDockerOnly ⟨"Docker", ["docker", "--version"]⟩).2 =
      ["✓ Docker is installed", "  Docker version 24.0.5, build ced0996"] := by
  have h := probe_available_iff_exit_zero envDockerOnly
    ⟨"Docker", ["docker", "--version"]⟩
  refine ⟨h.1.mpr ⟨"Docker version 24.0.5, build ced0996", by decide⟩, ?_⟩
  rw [h.2 "Docker version 24.0.5, build ced0996" (by decide)]
  decide

/-- Claim C2: a spawn failure or a timeout is caught inside the probe and
becomes an `available = false` result (the probe returns normally, with a
printed failure line, instead of propagating a fault), and every declared
tool's command is run by the aggregation loop regardless of any other
tool's outcome. -/
theorem probe_failure_contained (env : Env) (t : ToolSpec)
    (specs : List ToolSpec) :
    ((subprocessRun env t.command).isOk = false →
      probeTool env t = (false, ["✗ " ++ t.name ++ " not installed"])) ∧
    (t ∈ specs → Event.run t.command ∈ (checkAll env specs).1) := by
  constructor
  · intro hfail
    unfold probeTool
    unfold subprocessRun at hfail ⊢
    cases h : env t.command with
    | completed rc out =>
      rw [h] at hfail
      simp [Except.isOk, Except.toBool] at hfail
    | timedOut => rfl
    | notFound => rfl
  · intro hmem
    rw [show checkAll env specs =
          List.foldl (checkStep env) ([], []) specs from rfl]
    rw [foldl_checkStep_fst]
    refine List.mem_append.mpr (Or.inr ?_)
    refine List.mem_flatten.mpr ⟨(probeStep env t).1, ?_, ?_⟩
    · exact List.mem_map_of_mem _ hmem
    · exact List.mem_cons_self _ _

/-- Witness for C2: with no executable resolvable, the Docker probe
returns a failure result and both declared tools are still probed. -/
theorem probe_failure_contained_witness :
    probeTool envMissing ⟨"Docker", ["docker", "--version"]⟩ =
      (false, ["✗ Docker not installed"]) ∧
    Event.run ["ffmpeg", "-version"] ∈ (checkAll envMissing tools).1 := by
  refine ⟨?_, ?_⟩
  · have h := probe_failure_contained envMissing
      ⟨"Docker", ["docker", "--version"]⟩ tools
    rw [h.1 (by decide)]
    decide
  · have h := probe_failure_contained envMissing
      ⟨"FFmpeg", ["ffmpeg", "-version"]⟩ tools
    exact h.2 (by decide)

/-- Claim C3: the overall readiness boolean is true iff every entry of
the report is true — a pure logical AND: flipping any single entry to
false makes it false, and it is invariant under reordering the report. -/
theorem overallReady_iff_all_true (report : List (String × Bool)) :
    (overallReady report = true ↔ ∀ p ∈ report, p.2 = true) ∧
    (∀ (i : Nat) (k : String), i < report.length →
      overallReady (report.set i (k, false)) = false) ∧
    (∀ report' : List (String × Bool), report.Perm report' →
      overallReady report = overallReady report') := by
  refine ⟨?_, ?_, ?_⟩
  · simp [overallReady, List.all_eq_true]
  · intro i k hi
    have hm : (k, false) ∈ report.set i (k, false) :=
      List.mem_set report i hi (k, false)
    rw [Bool.eq_false_iff]
    intro hall
    have := List.all_eq_true.mp hall _ hm
    simp at this
  · intro report' hp
    rw [Bool.eq_iff_iff]
    constructor
    · intro hall
      exact List.all_eq_true.mpr fun x hx =>
        List.all_eq_true.mp hall x (hp.mem_iff.mpr hx)
    · intro hall
      exact List.all_eq_true.mpr fun x hx =>
        List.all_eq_true.mp hall x (hp.mem_iff.mp hx)

/-- Witness for C3: a report with both tools available is ready, and
flipping the FFmpeg entry to false flips the overall boolean. -/
theorem overallReady_iff_all_true_witness :
    overallReady [("Docker", true), ("FFmpeg", true)] = true ∧
    overallReady [("Docker", true), ("FFmpeg", false)] = false := by
  have h := overallReady_iff_all_true [("Docker", true), ("FFmpeg", true)]
  exact ⟨h.1.mpr (by decide), h.2.1 1 "FFmpeg" (by decide)⟩

/-- Claim C4: when the declared names are distinct (as they are in the
fixed tool list), the aggregation produces exactly one report entry per
declared spec — N entries keyed by the spec names in declaration order,
no duplicates — whatever each probe's outcome, and the boolean
`check_prerequisites` returns is computed from the fully populated
report. -/
theorem report_one_entry_per_spec (env : Env) (specs : List ToolSpec)
    (h : (specs.map ToolSpec.name).Nodup) :
    ((checkAll env specs).2).map Prod.fst = specs.map ToolSpec.name ∧
    ((checkAll env specs).2).length = specs.length ∧
    (((checkAll env specs).2).map Prod.fst).Nodup ∧
    (check_prerequisites env).2.2 =
      overallReady (check_prerequisites env).2.1 := by
  have hkeys : ((checkAll env specs).2).map Prod.fst =
      specs.map ToolSpec.name := by
    rw [show checkAll env specs =
          List.foldl (checkStep env) ([], []) specs from rfl]
    rw [foldl_checkStep_snd]
    have hk := dict_fold_keys env specs [] h (by intro t _; simp)
    simpa using hk
  refine ⟨hkeys, ?_, ?_, rfl⟩
  · have hlen := congrArg List.length hkeys
    simpa using hlen
  · rw [hkeys]; exact h

/-- Witness for C4: with every executable missing, the report still has
exactly the two declared entries, keyed Docker then FFmpeg. -/
theorem report_one_entry_per_spec_witness :
    ((checkAll envMissing tools).2).map Prod.fst = ["Docker", "FFmpeg"] ∧
    ((checkAll envMissing tools).2).length = 2 := by
  have h := report_one_entry_per_spec envMissing tools (by decide)
  exact ⟨h.1, h.2.1⟩

/-- Claim C5: the warning block appears in `main`'s output iff the
readiness check returned false; when it appears it is the last thing
printed, and when every tool is available it is absent. -/
theorem warning_iff_not_ready (env : Env) :
    (MainEvent.warning ∈ (main env).2 ↔
      (check_prerequisites env).2.2 = false) ∧
    ((check_prerequisites env).2.2 = false →
      (main env).2.getLast? = some MainEvent.warning) := by
  constructor
  · simp only [main]
    cases hok : (check_prerequisites env).2.2 with
    | true => simp
    | false => simp
  · intro hok
    simp only [main]
    rw [hok]
    rfl

/-- Witness for C5: with FFmpeg missing the check fails and the warning
block is the final section printed. -/
theorem warning_iff_not_ready_witness :
    (check_prerequisites envDockerOnly).2.2 = false ∧
    (main envDockerOnly).2.getLast? = some MainEvent.warning := by
  have h := warning_iff_not_ready envDockerOnly
  have hf : (check_prerequisites envDockerOnly).2.2 = false := by decide
  exact ⟨hf, h.2 hf⟩

/-- Counterexample to C6 as stated: the executable-missing cause and the
timed-out cause emit the identical failure message, so the three failure
causes are not pairwise distinguishable in the user-facing output. -/
theorem timeout_missing_same_message :
    (probeTool envHang ⟨"Docker", ["docker", "--version"]⟩).2 =
      ["✗ Docker not installed"] ∧
    (probeTool envMissing ⟨"Docker", ["docker", "--version"]⟩).2 =
      ["✗ Docker not installed"] := by
  decide

/-- Claim C6 (amended): the nonzero-exit cause is distinguishable in the
emitted message from the other two causes, but executable-missing and
timed-out probes print the identical "not installed" line and cannot be
told apart. -/
theorem failure_message_distinction (env env' env'' : Env) (t : ToolSpec)
    (h : env t.command = .timedOut)
    (h' : env' t.command = .notFound)
    (h'' : ∃ rc out, env'' t.command = .completed rc out ∧ rc ≠ 0) :
    (probeTool env t).2 = (probeTool env' t).2 ∧
    (probeTool env'' t).2 ≠ (probeTool env t).2 := by
  have he : (probeTool env t).2 = ["✗ " ++ t.name ++ " not installed"] := by
    unfold probeTool subprocessRun
    rw [h]
  have he' : (probeTool env' t).2 = ["✗ " ++ t.name ++ " not installed"] := by
    unfold probeTool subprocessRun
    rw [h']
  rcases h'' with ⟨rc, out, hc, hrc⟩
  have he'' : (probeTool env'' t).2 =
      ["✗ " ++ t.name ++ " not found or not working"] := by
    unfold probeTool subprocessRun
    rw [hc]
    simp [hrc]
  rw [he, he', he'']
  refine ⟨rfl, ?_⟩
  intro heq
  have h1 := (List.cons.inj heq).1
  have h2 := congrArg String.data h1
  simp only [String.data_append] at h2
  have h3 := List.append_cancel_left h2
  exact absurd h3 (by decide)

/-- Witness for C6 (amended): concrete hanging, missing and exit-1
environments show the shared message and the distinguishable one. -/
theorem failure_message_distinction_witness :
    (probeTool envHang ⟨"FFmpeg", ["ffmpeg", "-version"]⟩).2 =
      (probeTool envMissing ⟨"FFmpeg", ["ffmpeg", "-version"]⟩).2 ∧
    (probeTool envExitOne ⟨"FFmpeg", ["ffmpeg", "-version"]⟩).2 ≠
      (probeTool envHang ⟨"FFmpeg", ["ffmpeg", "-version"]⟩).2 :=
  failure_message_distinction envHang envMissing envExitOne
    ⟨"FFmpeg", ["ffmpeg", "-version"]⟩ rfl rfl ⟨1, "", rfl, by decide⟩

end TutorialPoc
